import Mathlib

/-!
Verification of the image-review-pdf utility.

Shallow embedding of the three Python modules
  - src/skills/documents/image-review-pdf/lib/image_processing.py
  - src/documents/image-review-pdf/lib/pdf_components.py
  - src/documents/image-review-pdf/scripts/process.py
followed by theorems settling the specification claims.

Conventions of the embedding:
  - Python floats are modelled as rationals (ℚ); `int(x)` (truncation toward
    zero) is `pyInt`; where the truncated quantity is provably nonnegative the
    embedding uses `⌊·⌋₊`, which coincides with truncation there.
  - Python truthiness of optional integers / strings is `optTruthy` / `strTruthy`
    (0, None and the empty string are falsy).
  - PIL images are modelled by their observable data: `SrcImage` (pixel size)
    where only geometry matters, and the term algebra `Img` (mode, size, and
    the applied PIL constructions) for `optimize_for_pdf`.
  - ReportLab flowables are the inductive `Flowable`; building a document is
    producing the story list; writing the output file is returning `some story`.
  - The filesystem is a list of file names plus `mtime`/`fsize` functions;
    `Image.open` is a `decode : String → Option SrcImage` parameter, `none`
    modelling a decode failure.
-/

/-- Python `int(x)` on a float: truncation toward zero, on ℚ. -/
def pyInt (q : ℚ) : ℤ :=
  if 0 ≤ q then ⌊q⌋ else -⌊-q⌋

/-- Python truthiness of an optional integer argument: `None` and `0` are falsy.
Used for the `if max_width:` style tests in `image_processing.py`. -/
def optTruthy : Option ℕ → Bool
  | none => false
  | some n => n != 0

/-- Python truthiness of an optional string: `None` and `""` are falsy. -/
def strTruthy : Option String → Bool
  | none => false
  | some s => !s.isEmpty

/-- ASCII lower-casing of a string, Python `str.lower()` on the identifiers
appearing here (file names, extensions). -/
def lowerStr (s : String) : String :=
  String.mk (s.toList.map Char.toLower)

/-- ASCII upper-casing, Python `str.upper()`. -/
def strUpper (s : String) : String :=
  String.mk (s.toList.map Char.toUpper)

/-! ### image_processing.py -/

/-- The scale factor computed by `ImageProcessor.create_thumbnail`
(image_processing.py lines 70-83): per-axis ratios default to 1.0 when the
bound is falsy, combined by the min when both bounds are truthy. -/
def thumbScale (ow oh : ℕ) (maxW maxH : Option ℕ) : ℚ :=
  let ws : ℚ := if optTruthy maxW then ((maxW.getD 0 : ℕ) : ℚ) / (ow : ℚ) else 1
  let hs : ℚ := if optTruthy maxH then ((maxH.getD 0 : ℕ) : ℚ) / (oh : ℚ) else 1
  if optTruthy maxW && optTruthy maxH then min ws hs
  else if optTruthy maxW then ws
  else if optTruthy maxH then hs
  else 1

/-- The (width, height) returned by `ImageProcessor.create_thumbnail`
(image_processing.py lines 63-100).  Python computes `int(original * scale)`;
the operand is a product of nonnegatives, where truncation toward zero is
`⌊·⌋₊`. -/
def create_thumbnail_dims (ow oh : ℕ) (maxW maxH : Option ℕ)
    (maintainAspect : Bool) : ℕ × ℕ :=
  if maintainAspect then
    let scale := thumbScale ow oh maxW maxH
    if scale < 1 then (⌊(ow : ℚ) * scale⌋₊, ⌊(oh : ℚ) * scale⌋₊)
    else (ow, oh)
  else
    (if optTruthy maxW then maxW.getD 0 else ow,
     if optTruthy maxH then maxH.getD 0 else oh)

/-- Term algebra of the PIL operations used by `optimize_for_pdf`: a source
image with its mode and pixel size, `Image.new("RGB", size, color)`,
`img.convert(mode)`, and `background.paste(img, mask=alpha)` followed by
taking the background (`maskIsAlpha` records whether the mask argument was
the last channel of `img` rather than `None`). -/
inductive Img where
  | src (mode : String) (width height : ℕ)
  | newRGB (width height : ℕ) (color : ℕ × ℕ × ℕ)
  | convert (img : Img) (newMode : String)
  | pasteMasked (canvas img : Img) (maskIsAlpha : Bool)

/-- The PIL mode of the result of each operation. -/
def Img.mode : Img → String
  | .src m _ _ => m
  | .newRGB _ _ _ => "RGB"
  | .convert _ m => m
  | .pasteMasked c _ _ => Img.mode c

/-- The pixel size of the result of each operation: `convert` and `paste`
preserve the size of the converted image / of the canvas. -/
def Img.size : Img → ℕ × ℕ
  | .src _ w h => (w, h)
  | .newRGB w h _ => (w, h)
  | .convert i _ => Img.size i
  | .pasteMasked c _ _ => Img.size c

/-- `ImageProcessor.optimize_for_pdf` (image_processing.py lines 102-136).
`quality` is accepted and unused, exactly as in the source, where it is only
applied at the encode step outside this function. -/
def optimize_for_pdf (img : Img) (format : String) (quality : ℕ) : Img :=
  if strUpper format == "JPEG" &&
      (Img.mode img == "RGBA" || Img.mode img == "LA" || Img.mode img == "P") then
    let background := Img.newRGB (Img.size img).1 (Img.size img).2 (255, 255, 255)
    let img2 := if Img.mode img == "P" then Img.convert img ("RGBA") else img
    Img.pasteMasked background img2 (Img.mode img2 == "RGBA" || Img.mode img2 == "LA")
  else if Img.mode img != "RGB" && strUpper format == "JPEG" then
    Img.convert img ("RGB")
  else img

/-- The metadata record returned by `ImageProcessor.get_image_info`
(image_processing.py lines 236-244). -/
structure ImageInfo where
  width : ℕ
  height : ℕ
  format : String
  mode : String
  size_bytes : ℕ
  aspect_ratio : ℚ

/-- `ImageProcessor.get_image_info`: the file-system observables of the opened
image are parameters; `aspect_ratio` is width / height guarded by
`if img.height > 0 else 0`. -/
def get_image_info (w h : ℕ) (fmt mode : String) (sz : ℕ) : ImageInfo :=
  ⟨w, h, fmt, mode, sz, if 0 < h then (w : ℚ) / (h : ℚ) else 0⟩

/-! ### pdf_components.py -/

/-- ReportLab flowables produced by pdf_components.py: paragraphs carry their
text and style name, images their path and rendered point size, the annotation
table its row count, column width and row height. -/
inductive Flowable where
  | para (text : String) (style : String)
  | image (path : String) (w h : ℚ)
  | spacer (w h : ℚ)
  | table (rows : ℕ) (colWidth rowHeight : ℚ)
  | pageBreak
  | keepTogether (elems : List Flowable)

/-- A decoded source image: the pixel size obtained from `img.size`. -/
structure SrcImage where
  width : ℕ
  height : ℕ

/-- `create_annotation_box` (pdf_components.py lines 91-132):
`num_lines = max(1, int(height / line_height))`, one empty row per line, each
of height `line_height`, a single column of the full width. -/
def create_annotation_box (width height lineHeight : ℚ) : Flowable :=
  Flowable.table (max 1 (pyInt (height / lineHeight))).toNat width lineHeight

/-- The rendered (width, height) chosen by `create_screenshot_block`
(pdf_components.py lines 188-195): when the pixel width exceeds `max_width`
the ratio `max_width / width` is applied to the height with no rounding,
otherwise the pixel dimensions are used as points unchanged. -/
def screenshot_dims (w h : ℕ) (maxW : ℚ) : ℚ × ℚ :=
  if (w : ℚ) > maxW then (maxW, (h : ℚ) * (maxW / (w : ℚ)))
  else ((w : ℚ), (h : ℚ))

/-- `create_screenshot_block` (pdf_components.py lines 135-221): optional bold
filename, then the image (or the italic error paragraph when the file cannot
be decoded), optional caption, optional annotation box when the configured
height is positive. -/
def create_screenshot_block (name : String) (decoded : Option SrcImage)
    (maxW : ℚ) (annotationHeight : ℚ) (showFilename : Bool)
    (caption : Option String) : List Flowable :=
  (if showFilename then [Flowable.para (("<b>") ++ name ++ ("</b>")) ("filename")] else []) ++
  (match decoded with
   | some img =>
       [Flowable.image name (screenshot_dims img.width img.height maxW).1
         (screenshot_dims img.width img.height maxW).2]
   | none =>
       [Flowable.para (("<i>[Error loading image: ") ++ name ++ ("]</i>")) ("caption")]) ++
  (if strTruthy caption then
     [Flowable.spacer 1 6, Flowable.para (caption.getD ("")) ("caption")]
   else []) ++
  (if (0 : ℚ) < annotationHeight then
     [Flowable.spacer 1 10, create_annotation_box maxW annotationHeight 20]
   else [])

/-- `add_screenshot_section` (pdf_components.py lines 224-307): optional
section title, then for each screenshot (indexed from 0) a kept-together item
block followed by a page break when `(idx + 1) % per_page == 0` and the item
is not the last, else a fixed `Spacer(1, 0.3*inch)` (0.3 in = 108/5 pt). -/
def add_screenshot_section (story : List Flowable) (screenshots : List String)
    (sectionTitle : Option String) (maxW annotationHeight : ℚ)
    (screenshotsPerPage : ℕ) (showFilenames : Bool)
    (decode : String → Option SrcImage) : List Flowable :=
  (story ++
    (if strTruthy sectionTitle then
       [Flowable.para (sectionTitle.getD ("")) ("subtitle"), Flowable.spacer 1 12]
     else [])) ++
  (List.range screenshots.length).flatMap (fun idx =>
    [Flowable.keepTogether
       (create_screenshot_block (screenshots.getD idx (""))
         (decode (screenshots.getD idx (""))) maxW annotationHeight showFilenames none),
     if (idx + 1) % screenshotsPerPage = 0 ∧ idx < screenshots.length - 1 then
       Flowable.pageBreak
     else Flowable.spacer 1 (108 / 5)])

/-- `create_title_page` (pdf_components.py lines 310-379): 1.5 in spacer,
title, optional subtitle, then a metadata line joining Author, Date (supplied
or today) and the caller key/value pairs with a literal " | ". -/
def create_title_page (title : String) (subtitle author date : Option String)
    (metadata : List (String × String)) (today : String) : List Flowable :=
  let parts :=
    (if strTruthy author then [("<b>Author:</b> ") ++ author.getD ("")] else []) ++
    (if strTruthy date then [("<b>Date:</b> ") ++ date.getD ("")]
     else [("<b>Date:</b> ") ++ today]) ++
    metadata.map (fun kv => ("<b>") ++ kv.1 ++ (":</b> ") ++ kv.2)
  [Flowable.spacer 1 108, Flowable.para title ("title")] ++
  (if strTruthy subtitle then [Flowable.para (subtitle.getD ("")) ("metadata")] else []) ++
  (if parts.isEmpty then [] else
    [Flowable.para (String.intercalate (" | ") parts) ("metadata")])

/-! ### process.py -/

/-- Glob matching of a flat pattern against a file name, with `*` and `?`
wildcards and case-sensitive literals, as `pathlib.Path.glob` performs for the
patterns this CLI accepts.  Structural recursion on an always-sufficient fuel
so that concrete instances evaluate. -/
def globMatchFuel : ℕ → List Char → List Char → Bool
  | 0, _, _ => false
  | fuel + 1, p, s =>
    match p, s with
    | [], rest => rest.isEmpty
    | '*' :: ps, [] => globMatchFuel fuel ps []
    | '*' :: ps, c :: cs =>
        globMatchFuel fuel ps (c :: cs) || globMatchFuel fuel ('*' :: ps) cs
    | '?' :: _, [] => false
    | '?' :: ps, _ :: cs => globMatchFuel fuel ps cs
    | _ :: _, [] => false
    | a :: ps, c :: cs => a == c && globMatchFuel fuel ps cs

/-- Glob matching with enough fuel for any run to reach a base case. -/
def globMatch (p s : List Char) : Bool :=
  globMatchFuel (p.length + s.length + 1) p s

/-- Python `pattern.split(',')` on the character list. -/
def splitOnComma : List Char → List (List Char)
  | [] => [[]]
  | c :: cs =>
      if c == ',' then [] :: splitOnComma cs
      else match splitOnComma cs with
        | [] => [[c]]
        | p :: ps => (c :: p) :: ps

/-- Characters stripped by Python `str.strip()` with no argument. -/
def isPySpace (c : Char) : Bool :=
  c == ' ' || c == '\t' || c == '\n' || c == '\r' || c == '\x0b' || c == '\x0c'

/-- Python `str.strip()`: drop leading and trailing whitespace. -/
def trimChars (cs : List Char) : List Char :=
  ((cs.dropWhile isPySpace).reverse.dropWhile isPySpace).reverse

/-- ASCII upper-casing of a character list, Python `pat.upper()`. -/
def upperChars (cs : List Char) : List Char :=
  cs.map Char.toUpper

/-- `pathlib.PurePath.suffix`: the extension from the last dot, nonempty only
when the dot is at an interior position of the name. -/
def pySuffix (name : String) : String :=
  let cs := name.toList
  let dots := (List.range cs.length).filter (fun i => cs.getD i (' ') == '.')
  match dots.getLast? with
  | none => ""
  | some i => if 0 < i ∧ i + 1 < cs.length then String.mk (cs.drop i) else ""

/-- The fixed image-extension allow-list of `find_images`
(process.py line 60). -/
def imageExtensions : List String :=
  [".png", ".jpg", ".jpeg", ".gif", ".bmp", ".tiff", ".webp"]

/-- Case-insensitive name order used by `files.sort(key=lambda x: x.name.lower())`:
lexicographic comparison of the lower-cased characters. -/
def charListLe : List Char → List Char → Bool
  | [], _ => true
  | _ :: _, [] => false
  | a :: as, b :: bs =>
      if a < b then true else if b < a then false else charListLe as bs

/-- The sort key relation for `sort_by == "name"`. -/
def nameLe (a b : String) : Prop :=
  charListLe (a.toList.map Char.toLower) (b.toList.map Char.toLower) = true

instance : DecidableRel nameLe :=
  fun a b => inferInstanceAs (Decidable (_ = true))

/-- `find_images` (process.py lines 42-71): split the comma-separated pattern
list, strip each pattern, glob the directory with the pattern as given and
upper-cased, deduplicate, keep only names whose lower-cased suffix is in the
image allow-list, then sort by the selected key.  The directory is the list of
its entry names; `mtime`/`fsize` stand for `stat()`. -/
def find_images (dirFiles : List String) (mtime fsize : String → ℕ)
    (pattern sortBy : String) : List String :=
  let patterns := (splitOnComma pattern.toList).map trimChars
  let files0 := patterns.flatMap (fun pat =>
    dirFiles.filter (fun f => globMatch pat f.toList) ++
    dirFiles.filter (fun f => globMatch (upperChars pat) f.toList))
  let files1 := files0.dedup
  let files2 := files1.filter (fun f => imageExtensions.contains (lowerStr (pySuffix f)))
  if sortBy == "name" then files2.insertionSort nameLe
  else if sortBy == "date" then files2.insertionSort (fun a b => mtime a ≤ mtime b)
  else if sortBy == "size" then files2.insertionSort (fun a b => fsize a ≤ fsize b)
  else files2

/-- `generate_pdf` (process.py lines 74-157): an empty image list reports an
error and returns failure before the output document is created; otherwise the
story (optional title page, then the screenshot section) is built and written,
modelled as `some story`. -/
def generate_pdf (decode : String → Option SrcImage) (today : String)
    (images : List String) (maxW : ℚ) (annotationHeight : ℚ)
    (imagesPerPage : ℕ) (title author date : Option String) :
    Option (List Flowable) :=
  if images.isEmpty then none
  else
    some (add_screenshot_section
      (if strTruthy title then
         create_title_page (title.getD ("")) none author date
           [(("Images"), toString images.length)] today ++ [Flowable.pageBreak]
       else [])
      images none maxW annotationHeight imagesPerPage true decode)

/-- `main` (process.py lines 260-315) after argument parsing and directory
validation: discover images, exit 1 when none match (before any output),
convert the pixel width to points at 96 DPI, and exit 0 exactly when
`generate_pdf` succeeds.  The pair is (exit code, written output). -/
def pdfMain (dirFiles : List String) (mtime fsize : String → ℕ)
    (decode : String → Option SrcImage) (today : String)
    (pattern sortBy : String) (widthPx : ℕ) (perPage : ℕ)
    (annotationHeight : ℚ) (title author date : Option String) :
    ℕ × Option (List Flowable) :=
  let images := find_images dirFiles mtime fsize pattern sortBy
  if images.isEmpty then (1, none)
  else
    match generate_pdf decode today images (((widthPx : ℚ) / 96) * 72)
        annotationHeight perPage title author date with
    | some story => (0, some story)
    | none => (1, none)


/-! ### Observation predicates on stories -/

/-- Recognizes the `KeepTogether` wrapper around one item block. -/
def isKeepTogetherFlow : Flowable → Bool
  | .keepTogether _ => true
  | _ => false

/-- Recognizes an image flowable. -/
def isImageFlow : Flowable → Bool
  | .image _ _ _ => true
  | _ => false

/-- Whether the first list is an initial segment of the second. -/
def beginsWith : List Char → List Char → Bool
  | [], _ => true
  | _ :: _, [] => false
  | a :: as, b :: bs => a == b && beginsWith as bs

/-- Recognizes the italic decode-failure paragraph emitted by
`create_screenshot_block`. -/
def isErrorPara : Flowable → Bool
  | .para t _ => beginsWith ("<i>[Error loading image: ").toList t.toList
  | _ => false

/-- An item block containing the decode-failure paragraph. -/
def blockHasError : Flowable → Bool
  | .keepTogether es => es.any isErrorPara
  | _ => false

/-- An item block containing a rendered image. -/
def blockHasImage : Flowable → Bool
  | .keepTogether es => es.any isImageFlow
  | _ => false

/-- A decoder for the three-image scenario of the error-handling claims:
every file decodes to a 100x80 image except `bad.png`, which fails. -/
def decodeOneBad (n : String) : Option SrcImage :=
  if n == "bad.png" then none else some ⟨100, 80⟩

/-! ### Helper lemmas -/

theorem thumbScale_nonneg (ow oh : ℕ) (maxW maxH : Option ℕ) :
    0 ≤ thumbScale ow oh maxW maxH := by
  unfold thumbScale
  split_ifs <;>
    first
      | exact le_min (by positivity) (by positivity)
      | positivity

theorem thumbScale_le_width (ow oh : ℕ) (w : ℕ) (maxH : Option ℕ) (hw : w ≠ 0) :
    thumbScale ow oh (some w) maxH ≤ (w : ℚ) / (ow : ℚ) := by
  unfold thumbScale
  have ht : optTruthy (some w) = true := by simp [optTruthy, hw]
  simp only [ht, Option.getD_some, Bool.true_and, if_true]
  split_ifs
  · exact min_le_left _ _
  · exact le_refl _

theorem pyInt_of_nonneg (q : ℚ) (h : 0 ≤ q) : pyInt q = ⌊q⌋ :=
  if_pos h

/-! ### C9: guarded aspect ratio -/

/-- C9: for an image of pixel height zero, `get_image_info` returns a record
whose `aspect_ratio` field is 0 rather than raising a division error, and for
positive heights the field is width / height; the computation is total in the
height argument. -/
theorem C9_get_image_info_aspect_ratio (w : ℕ) (fmt mode : String) (sz : ℕ) :
    (get_image_info w 0 fmt mode sz).aspect_ratio = 0 ∧
    (∀ h : ℕ, 0 < h →
      (get_image_info w h fmt mode sz).aspect_ratio = (w : ℚ) / (h : ℚ)) := by
  constructor
  · simp [get_image_info]
  · intro h hh
    simp [get_image_info, hh]

/-- Witness for C9 at a concrete zero-height and a concrete 16x9 image. -/
theorem C9_get_image_info_aspect_ratio_witness :
    (get_image_info 16 0 ("PNG") ("RGB") 100).aspect_ratio = 0 ∧
    (0 : ℕ) < 9 ∧
    (get_image_info 16 9 ("PNG") ("RGB") 100).aspect_ratio = (16 : ℚ) / 9 :=
  ⟨(C9_get_image_info_aspect_ratio 16 ("PNG") ("RGB") 100).1, by decide,
    (C9_get_image_info_aspect_ratio 16 ("PNG") ("RGB") 100).2 9 (by decide)⟩

/-! ### C3: JPEG mode normalization -/

/-- C3: for a JPEG target, alpha- and palette-mode images are flattened onto
an opaque white canvas of the same dimensions with the alpha channel as mask
(palette images promoted to RGBA first), yielding an RGB image of the same
size; any other non-RGB mode is converted directly to RGB; non-JPEG targets
are returned unchanged. -/
theorem C3_optimize_for_pdf_modes (img : Img) (format : String) (q : ℕ) :
    (strUpper format = "JPEG" →
      (Img.mode img = "RGBA" ∨ Img.mode img = "LA" ∨ Img.mode img = "P") →
      optimize_for_pdf img format q =
        Img.pasteMasked
          (Img.newRGB (Img.size img).1 (Img.size img).2 (255, 255, 255))
          (if Img.mode img == "P" then Img.convert img ("RGBA") else img) true ∧
      Img.mode (optimize_for_pdf img format q) = "RGB" ∧
      Img.size (optimize_for_pdf img format q) = Img.size img) ∧
    (strUpper format = "JPEG" →
      ¬(Img.mode img = "RGBA" ∨ Img.mode img = "LA" ∨ Img.mode img = "P") →
      Img.mode img ≠ "RGB" →
      optimize_for_pdf img format q = Img.convert img ("RGB")) ∧
    (strUpper format ≠ "JPEG" → optimize_for_pdf img format q = img) := by
  refine ⟨?_, ?_, ?_⟩
  · intro hf hm
    have hc : (strUpper format == "JPEG") = true := by simp [hf]
    have hm1 : (Img.mode img == "RGBA" || Img.mode img == "LA" || Img.mode img == "P")
        = true := by
      rcases hm with h | h | h <;> simp [h]
    have hmask :
        (Img.mode (if Img.mode img == "P" then Img.convert img ("RGBA") else img) == "RGBA"
          || Img.mode (if Img.mode img == "P" then Img.convert img ("RGBA") else img) == "LA")
        = true := by
      rcases hm with h | h | h <;> simp [h, Img.mode]
    refine ⟨?_, ?_, ?_⟩
    · simp only [optimize_for_pdf, hc, hm1, Bool.true_and, if_true, hmask]
    · simp only [optimize_for_pdf, hc, hm1, Bool.true_and, if_true, Img.mode]
    · simp only [optimize_for_pdf, hc, hm1, Bool.true_and, if_true, Img.size]
  · intro hf hm hrgb
    push_neg at hm
    obtain ⟨h1, h2, h3⟩ := hm
    have hc : (strUpper format == "JPEG") = true := by simp [hf]
    simp [optimize_for_pdf, hc, h1, h2, h3, hrgb]
  · intro hf
    have hc : (strUpper format == "JPEG") = false := by simp [hf]
    simp [optimize_for_pdf, hc]

/-- Witness for C3: an RGBA source flattened for JPEG, a CMYK source converted
directly, and a PNG target left unchanged. -/
theorem C3_optimize_for_pdf_modes_witness :
    strUpper ("JPEG") = "JPEG" ∧
    optimize_for_pdf (Img.src ("RGBA") 4 3) ("JPEG") 85 =
      Img.pasteMasked (Img.newRGB 4 3 (255, 255, 255)) (Img.src ("RGBA") 4 3) true ∧
    optimize_for_pdf (Img.src ("CMYK") 2 2) ("JPEG") 85 =
      Img.convert (Img.src ("CMYK") 2 2) ("RGB") ∧
    optimize_for_pdf (Img.src ("RGBA") 4 3) ("PNG") 85 = Img.src ("RGBA") 4 3 := by
  refine ⟨by decide, ?_, ?_, ?_⟩
  · exact ((C3_optimize_for_pdf_modes (Img.src ("RGBA") 4 3) ("JPEG") 85).1
      (by decide) (Or.inl (by decide))).1
  · exact (C3_optimize_for_pdf_modes (Img.src ("CMYK") 2 2) ("JPEG") 85).2.1
      (by decide) (by decide) (by decide)
  · exact (C3_optimize_for_pdf_modes (Img.src ("RGBA") 4 3) ("PNG") 85).2.2 (by decide)

/-! ### C10: idempotence of optimize_for_pdf -/

theorem optimize_mode_or_id (img : Img) (format : String) (q : ℕ) :
    Img.mode (optimize_for_pdf img format q) = "RGB" ∨
    optimize_for_pdf img format q = img := by
  unfold optimize_for_pdf
  split_ifs with h1 h2
  all_goals simp [Img.mode]

/-- C10: `optimize_for_pdf` is idempotent: a second application with the same
format and quality returns its input unchanged, because a JPEG pass always
produces an RGB-mode image and a non-JPEG pass is the identity. -/
theorem optimize_id_of_rgb (r : Img) (format : String) (q : ℕ)
    (hr : Img.mode r = "RGB") : optimize_for_pdf r format q = r := by
  have h1 : ¬((strUpper format == "JPEG" &&
      (Img.mode r == "RGBA" || Img.mode r == "LA" || Img.mode r == "P")) = true) := by
    simp [hr]
  have h2 : ¬((Img.mode r != "RGB" && strUpper format == "JPEG") = true) := by
    simp [hr]
  unfold optimize_for_pdf
  rw [if_neg h1, if_neg h2]

theorem C10_optimize_for_pdf_idempotent (img : Img) (format : String) (q : ℕ) :
    optimize_for_pdf (optimize_for_pdf img format q) format q =
      optimize_for_pdf img format q := by
  rcases optimize_mode_or_id img format q with hm | hid
  · exact optimize_id_of_rgb _ format q hm
  · rw [hid]; exact hid

/-! ### C6: annotation box line count -/

/-- C6: the annotation box has exactly `max 1 ⌊height / lineHeight⌋` ruled
rows, each of the given line height, in one column of the full width; with
height 150 and line height 20 this is 7 rows, with height 10 it is 1 row. -/
theorem C6_annotation_box_lines (w h lh : ℚ) (hh : 0 < h) (hlh : 0 < lh) :
    create_annotation_box w h lh = Flowable.table (max 1 ⌊h / lh⌋₊) w lh ∧
    create_annotation_box w 150 20 = Flowable.table 7 w 20 ∧
    create_annotation_box w 10 20 = Flowable.table 1 w 20 := by
  refine ⟨?_, ?_, ?_⟩
  · unfold create_annotation_box
    congr 1
    rw [pyInt_of_nonneg _ (div_nonneg hh.le hlh.le), ← Int.floor_toNat]
    omega
  · unfold create_annotation_box
    congr 1
    have h7 : ⌊(150 : ℚ) / 20⌋ = 7 := by norm_num
    rw [pyInt_of_nonneg _ (by norm_num), h7]
    decide
  · unfold create_annotation_box
    congr 1
    have h0 : ⌊(10 : ℚ) / 20⌋ = 0 := by norm_num
    rw [pyInt_of_nonneg _ (by norm_num), h0]
    decide

/-- Witness for C6 at a 432-point-wide box. -/
theorem C6_annotation_box_lines_witness :
    (0 : ℚ) < 150 ∧ (0 : ℚ) < 20 ∧
    create_annotation_box 432 150 20 = Flowable.table (max 1 ⌊(150 : ℚ) / 20⌋₊) 432 20 ∧
    create_annotation_box 432 150 20 = Flowable.table 7 432 20 :=
  ⟨by decide, by decide, (C6_annotation_box_lines 432 150 20 (by decide) (by decide)).1,
    (C6_annotation_box_lines 432 150 20 (by decide) (by decide)).2.1⟩

/-! ### C2: item-block image geometry -/

/-- Counterexample to C2: for a 3x2 source image and a maximum width of 2
points, the claimed §4.1 rule predicts a rendered height of
`⌊2 * (2/3)⌋ = 1`, but `create_screenshot_block` renders the exact value
`2 * (2/3) = 4/3` with no flooring. -/
theorem C2_block_floor_counterexample :
    screenshot_dims 3 2 2 = ((2 : ℚ), 4 / 3) ∧
    (⌊(2 : ℚ) * ((2 : ℚ) / 3)⌋₊ : ℚ) = 1 ∧ ((4 : ℚ) / 3 ≠ 1) := by
  refine ⟨?_, ?_, by norm_num⟩
  · unfold screenshot_dims
    rw [if_pos (by norm_num)]
    norm_num
  · rw [show (2 : ℚ) * ((2 : ℚ) / 3) = ((4 : ℕ) : ℚ) / ((3 : ℕ) : ℚ) by norm_num,
      Rat.natFloor_natCast_div_natCast]
    norm_num

/-- C2 (amended): the item block fits the image against the configured max
width without flooring: when the pixel width exceeds `max_width` the rendered
width is exactly `max_width` and the rendered height is exactly
`height * (max_width / width)`, preserving the aspect ratio exactly; when the
pixel width is at most `max_width` the original dimensions are used; the item
block renders the image at exactly these dimensions. -/
theorem C2_block_exact_scaling (name : String) (w h : ℕ) (maxW annH : ℚ)
    (showF : Bool) (cap : Option String) (hw : 0 < w) :
    (maxW < (w : ℚ) →
      (screenshot_dims w h maxW).1 = maxW ∧
      (screenshot_dims w h maxW).2 = (h : ℚ) * (maxW / (w : ℚ))) ∧
    ((w : ℚ) ≤ maxW → screenshot_dims w h maxW = ((w : ℚ), (h : ℚ))) ∧
    (screenshot_dims w h maxW).2 * (w : ℚ) = (h : ℚ) * (screenshot_dims w h maxW).1 ∧
    Flowable.image name (screenshot_dims w h maxW).1 (screenshot_dims w h maxW).2 ∈
      create_screenshot_block name (some ⟨w, h⟩) maxW annH showF cap := by
  have hw0 : ((w : ℚ)) ≠ 0 := by positivity
  refine ⟨?_, ?_, ?_, ?_⟩
  · intro hlt
    unfold screenshot_dims
    rw [if_pos hlt]
    exact ⟨rfl, rfl⟩
  · intro hle
    unfold screenshot_dims
    rw [if_neg (not_lt.mpr hle)]
  · unfold screenshot_dims
    split_ifs with hgt
    · rw [mul_assoc, div_mul_cancel₀ _ hw0]
    · ring
  · unfold create_screenshot_block
    apply List.mem_append_left
    apply List.mem_append_left
    apply List.mem_append_right
    simp

/-- Witness for C2 (amended) at the 3x2 source and max width 2 of the
counterexample. -/
theorem C2_block_exact_scaling_witness :
    (0 : ℕ) < 3 ∧
    ((2 : ℚ) < ((3 : ℕ) : ℚ) →
      (screenshot_dims 3 2 2).1 = 2 ∧
      (screenshot_dims 3 2 2).2 = ((2 : ℕ) : ℚ) * ((2 : ℚ) / ((3 : ℕ) : ℚ))) ∧
    (screenshot_dims 3 2 2).2 * ((3 : ℕ) : ℚ) =
      ((2 : ℕ) : ℚ) * (screenshot_dims 3 2 2).1 ∧
    Flowable.image ("shot.png") (screenshot_dims 3 2 2).1 (screenshot_dims 3 2 2).2 ∈
      create_screenshot_block ("shot.png") (some ⟨3, 2⟩) 2 150 true none :=
  ⟨by decide,
    ((C2_block_exact_scaling ("shot.png") 3 2 2 150 true none (by decide))).1,
    ((C2_block_exact_scaling ("shot.png") 3 2 2 150 true none (by decide))).2.2.1,
    ((C2_block_exact_scaling ("shot.png") 3 2 2 150 true none (by decide))).2.2.2⟩

/-! ### C8: empty input refused before output -/

/-- C8: with no input images the build reports failure and writes no output:
`generate_pdf` returns `none` for the empty list before any document is
created, and the CLI exits with status 1 and no output file whenever
discovery finds no images. -/
theorem C8_no_images_no_output :
    (∀ (decode : String → Option SrcImage) (today : String) (maxW annH : ℚ)
       (perPage : ℕ) (title author date : Option String),
       generate_pdf decode today [] maxW annH perPage title author date = none) ∧
    (∀ (dirFiles : List String) (mtime fsize : String → ℕ)
       (decode : String → Option SrcImage) (today : String)
       (pattern sortBy : String) (widthPx perPage : ℕ) (annH : ℚ)
       (title author date : Option String),
       find_images dirFiles mtime fsize pattern sortBy = [] →
       pdfMain dirFiles mtime fsize decode today pattern sortBy widthPx perPage annH
         title author date = (1, none)) := by
  constructor
  · intro decode today maxW annH perPage title author date
    simp [generate_pdf]
  · intro dirFiles mtime fsize decode today pattern sortBy widthPx perPage annH
      title author date hempty
    simp [pdfMain, hempty]

/-- Witness for C8: a directory whose only entry matches no pattern. -/
theorem C8_no_images_no_output_witness :
    generate_pdf (fun _ => some ⟨100, 80⟩) ("2026-10-12") [] 432 150 1 none none none
      = none ∧
    find_images ["c.txt"] (fun _ => 0) (fun _ => 0) ("*.png,*.jpg,*.jpeg") ("name") = [] ∧
    pdfMain ["c.txt"] (fun _ => 0) (fun _ => 0) (fun _ => some ⟨100, 80⟩) ("2026-10-12")
      ("*.png,*.jpg,*.jpeg") ("name") 500 1 150 none none none = (1, none) :=
  ⟨C8_no_images_no_output.1 (fun _ => some ⟨100, 80⟩) ("2026-10-12") 432 150 1
      none none none,
    by decide,
    C8_no_images_no_output.2 ["c.txt"] (fun _ => 0) (fun _ => 0)
      (fun _ => some ⟨100, 80⟩) ("2026-10-12") ("*.png,*.jpg,*.jpeg") ("name") 500 1 150
      none none none (by decide)⟩

/-! ### C1: thumbnail geometry -/

/-- C1: with positive original dimensions, aspect preservation and at least
one (truthy) bound, `create_thumbnail` applies the scale
`min (combined ratio) 1`: the returned dimensions are always the floors of
`original * clamped scale` (so the originals exactly when the scale reaches
1); whenever a width bound below the original width is given the returned
width is at most that bound, and the height/width ratio is preserved within
one unit of cross-multiplied rounding error. -/
theorem C1_create_thumbnail_geometry (ow oh : ℕ) (maxW maxH : Option ℕ)
    (hw : 0 < ow) (hh : 0 < oh)
    (hb : optTruthy maxW = true ∨ optTruthy maxH = true) :
    create_thumbnail_dims ow oh maxW maxH true =
      (⌊(ow : ℚ) * min (thumbScale ow oh maxW maxH) 1⌋₊,
       ⌊(oh : ℚ) * min (thumbScale ow oh maxW maxH) 1⌋₊) ∧
    (1 ≤ thumbScale ow oh maxW maxH →
      create_thumbnail_dims ow oh maxW maxH true = (ow, oh)) ∧
    (∀ w : ℕ, maxW = some w → 0 < w → w < ow →
      thumbScale ow oh maxW maxH < 1 ∧
      (create_thumbnail_dims ow oh maxW maxH true).1 ≤ w) ∧
    (((create_thumbnail_dims ow oh maxW maxH true).2 : ℚ) * (ow : ℚ) -
        ((create_thumbnail_dims ow oh maxW maxH true).1 : ℚ) * (oh : ℚ) < (oh : ℚ) ∧
      ((create_thumbnail_dims ow oh maxW maxH true).1 : ℚ) * (oh : ℚ) -
        ((create_thumbnail_dims ow oh maxW maxH true).2 : ℚ) * (ow : ℚ) < (ow : ℚ)) := by
  have hs0 : 0 ≤ thumbScale ow oh maxW maxH := thumbScale_nonneg ow oh maxW maxH
  have hw' : (0 : ℚ) < (ow : ℚ) := by exact_mod_cast hw
  have hh' : (0 : ℚ) < (oh : ℚ) := by exact_mod_cast hh
  have hclamp : create_thumbnail_dims ow oh maxW maxH true =
      (⌊(ow : ℚ) * min (thumbScale ow oh maxW maxH) 1⌋₊,
       ⌊(oh : ℚ) * min (thumbScale ow oh maxW maxH) 1⌋₊) := by
    unfold create_thumbnail_dims
    by_cases hlt : thumbScale ow oh maxW maxH < 1
    · rw [if_pos rfl, if_pos hlt, min_eq_left hlt.le]
    · rw [if_pos rfl, if_neg hlt, min_eq_right (not_lt.mp hlt)]
      simp
  have hscale_lt : ∀ w : ℕ, maxW = some w → 0 < w → w < ow →
      thumbScale ow oh maxW maxH < 1 := by
    intro w hmw hw0 hlt
    subst hmw
    calc thumbScale ow oh (some w) maxH ≤ (w : ℚ) / (ow : ℚ) :=
          thumbScale_le_width ow oh w maxH hw0.ne'
      _ < 1 := (div_lt_one hw').mpr (by exact_mod_cast hlt)
  refine ⟨hclamp, ?_, ?_, ?_⟩
  · intro h1
    unfold create_thumbnail_dims
    rw [if_pos rfl, if_neg (not_lt.mpr h1)]
  · intro w hmw hw0 hlt
    refine ⟨hscale_lt w hmw hw0 hlt, ?_⟩
    have hs1 : thumbScale ow oh maxW maxH < 1 := hscale_lt w hmw hw0 hlt
    rw [hclamp]
    have hle : (ow : ℚ) * min (thumbScale ow oh maxW maxH) 1 ≤
        (ow : ℚ) * ((w : ℚ) / (ow : ℚ)) := by
      apply mul_le_mul_of_nonneg_left _ hw'.le
      rw [min_eq_left hs1.le]
      subst hmw
      exact thumbScale_le_width ow oh w maxH hw0.ne'
    have hcancel : (ow : ℚ) * ((w : ℚ) / (ow : ℚ)) = (w : ℚ) := by
      field_simp
    calc ⌊(ow : ℚ) * min (thumbScale ow oh maxW maxH) 1⌋₊
        ≤ ⌊(ow : ℚ) * ((w : ℚ) / (ow : ℚ))⌋₊ := Nat.floor_le_floor hle
      _ = w := by rw [hcancel, Nat.floor_natCast]
  · rw [hclamp]
    set s := min (thumbScale ow oh maxW maxH) 1 with hsdef
    have hs0' : 0 ≤ s := le_min hs0 zero_le_one
    have hfl1 : ((⌊(ow : ℚ) * s⌋₊ : ℕ) : ℚ) ≤ (ow : ℚ) * s :=
      Nat.floor_le (by positivity)
    have hfl1b : (ow : ℚ) * s < (⌊(ow : ℚ) * s⌋₊ : ℕ) + 1 :=
      Nat.lt_floor_add_one _
    have hfl2 : ((⌊(oh : ℚ) * s⌋₊ : ℕ) : ℚ) ≤ (oh : ℚ) * s :=
      Nat.floor_le (by positivity)
    have hfl2b : (oh : ℚ) * s < (⌊(oh : ℚ) * s⌋₊ : ℕ) + 1 :=
      Nat.lt_floor_add_one _
    constructor
    · nlinarith [hfl2, hfl1b, hw', hh']
    · nlinarith [hfl1, hfl2b, hw', hh']

/-- Witness for C1: a 10x8 source limited to width 5 halves both dimensions. -/
theorem C1_create_thumbnail_geometry_witness :
    (0 : ℕ) < 10 ∧ (0 : ℕ) < 8 ∧ optTruthy (some 5) = true ∧
    (1 ≤ thumbScale 10 8 (some 5) none →
      create_thumbnail_dims 10 8 (some 5) none true = (10, 8)) ∧
    thumbScale 10 8 (some 5) none < 1 ∧
    (create_thumbnail_dims 10 8 (some 5) none true).1 ≤ 5 :=
  ⟨by decide, by decide, by decide,
    (C1_create_thumbnail_geometry 10 8 (some 5) none (by decide) (by decide)
      (Or.inl (by decide))).2.1,
    ((C1_create_thumbnail_geometry 10 8 (some 5) none (by decide) (by decide)
      (Or.inl (by decide))).2.2.1 5 rfl (by decide) (by decide)).1,
    ((C1_create_thumbnail_geometry 10 8 (some 5) none (by decide) (by decide)
      (Or.inl (by decide))).2.2.1 5 rfl (by decide) (by decide)).2⟩

/-! ### C4: page breaks between items -/

theorem range_flatMap_pair_length {α : Type} (f g : ℕ → α) (L : ℕ) :
    ((List.range L).flatMap (fun j => [f j, g j])).length = 2 * L := by
  induction L with
  | zero => rfl
  | succ L ih =>
      rw [List.range_succ, List.flatMap_append, List.length_append, ih]
      simp [Nat.mul_succ]

theorem range_flatMap_pair_getElem {α : Type} (f g : ℕ → α) (L i : ℕ) (h : i < L) :
    ((List.range L).flatMap (fun j => [f j, g j]))[2 * i]? = some (f i) ∧
    ((List.range L).flatMap (fun j => [f j, g j]))[2 * i + 1]? = some (g i) := by
  induction L with
  | zero => omega
  | succ L ih =>
      rw [List.range_succ, List.flatMap_append]
      have hlen : ((List.range L).flatMap (fun j => [f j, g j])).length = 2 * L :=
        range_flatMap_pair_length f g L
      rcases Nat.lt_or_ge i L with hiL | hiL
      · constructor
        · rw [List.getElem?_append_left (by omega)]
          exact (ih hiL).1
        · rw [List.getElem?_append_left (by omega)]
          exact (ih hiL).2
      · have hi : i = L := by omega
        subst hi
        constructor
        · rw [List.getElem?_append_right (by omega), hlen]
          simp
        · rw [List.getElem?_append_right (by omega), hlen]
          simp

/-- C4: in the assembled section, the flowable placed directly after the i-th
item (1-indexed; position `2*(i-1)+1` past the story prefix and optional
section header) is a forced page break exactly when i is a multiple of the
items-per-page count N and i is not the last item, and is the fixed
`Spacer(1, 0.3 inch)` otherwise; in particular the final item is always
followed by the spacer, never a page break. -/
theorem C4_page_break_schedule (story : List Flowable) (screenshots : List String)
    (sectionTitle : Option String) (maxW annH : ℚ) (N : ℕ) (showF : Bool)
    (decode : String → Option SrcImage) (hN : 1 ≤ N) (i : ℕ) (h1 : 1 ≤ i)
    (h2 : i ≤ screenshots.length) :
    ((add_screenshot_section story screenshots sectionTitle maxW annH N showF
        decode)[(story.length + (if strTruthy sectionTitle then 2 else 0)) +
          (2 * (i - 1) + 1)]? = some Flowable.pageBreak ↔
      N ∣ i ∧ i < screenshots.length) ∧
    (¬(N ∣ i ∧ i < screenshots.length) →
      (add_screenshot_section story screenshots sectionTitle maxW annH N showF
        decode)[(story.length + (if strTruthy sectionTitle then 2 else 0)) +
          (2 * (i - 1) + 1)]? = some (Flowable.spacer 1 (108 / 5))) ∧
    (add_screenshot_section story screenshots sectionTitle maxW annH N showF
        decode)[(story.length + (if strTruthy sectionTitle then 2 else 0)) +
          (2 * (screenshots.length - 1) + 1)]? ≠ some Flowable.pageBreak := by
  have hL : 1 ≤ screenshots.length := le_trans h1 h2
  have hsep : ∀ j : ℕ, 1 ≤ j → j ≤ screenshots.length →
      (add_screenshot_section story screenshots sectionTitle maxW annH N showF
        decode)[(story.length + (if strTruthy sectionTitle then 2 else 0)) +
          (2 * (j - 1) + 1)]? =
        some (if j % N = 0 ∧ j < screenshots.length then Flowable.pageBreak
          else Flowable.spacer 1 (108 / 5)) := by
    intro j hj1 hj2
    unfold add_screenshot_section
    have hpre : (story ++
        (if strTruthy sectionTitle then
           [Flowable.para (sectionTitle.getD ("")) ("subtitle"), Flowable.spacer 1 12]
         else [])).length =
        story.length + (if strTruthy sectionTitle then 2 else 0) := by
      rw [List.length_append]
      split_ifs <;> rfl
    rw [List.getElem?_append_right (by omega), hpre]
    have hsub : story.length + (if strTruthy sectionTitle then 2 else 0) +
        (2 * (j - 1) + 1) -
        (story.length + (if strTruthy sectionTitle then 2 else 0)) =
        2 * (j - 1) + 1 := by omega
    rw [hsub]
    have hget := (range_flatMap_pair_getElem
      (fun idx => Flowable.keepTogether
        (create_screenshot_block (screenshots.getD idx (""))
          (decode (screenshots.getD idx (""))) maxW annH showF none))
      (fun idx => if (idx + 1) % N = 0 ∧ idx < screenshots.length - 1 then
          Flowable.pageBreak
        else Flowable.spacer 1 (108 / 5))
      screenshots.length (j - 1) (by omega)).2
    rw [hget]
    congr 1
    have hone : j - 1 + 1 = j := by omega
    have hlt : (j - 1 < screenshots.length - 1) ↔ (j < screenshots.length) := by
      omega
    rw [hone]
    exact if_congr (and_congr_right fun _ => hlt) rfl rfl
  refine ⟨?_, ?_, ?_⟩
  · rw [hsep i h1 h2]
    by_cases hc : i % N = 0 ∧ i < screenshots.length
    · rw [if_pos hc]
      exact ⟨fun _ => ⟨Nat.dvd_iff_mod_eq_zero.mpr hc.1, hc.2⟩, fun _ => rfl⟩
    · rw [if_neg hc]
      constructor
      · intro hfalse
        simp at hfalse
      · intro hdvd
        have hmod : i % N = 0 ∧ i < screenshots.length :=
          ⟨Nat.dvd_iff_mod_eq_zero.mp hdvd.1, hdvd.2⟩
        exact absurd hmod hc
  · intro hnd
    rw [hsep i h1 h2, if_neg]
    intro hc
    exact hnd ⟨Nat.dvd_iff_mod_eq_zero.mpr hc.1, hc.2⟩
  · rw [hsep screenshots.length hL (le_refl _), if_neg (by omega)]
    simp

/-- Witness for C4: with 3 items and 2 per page, item 2 is followed by a page
break and the final item 3 by the spacer. -/
theorem C4_page_break_schedule_witness :
    (add_screenshot_section [] ["a.png", "b.png", "c.png"] none 432 150 2 true
      (fun _ => some ⟨100, 80⟩))[3]? = some Flowable.pageBreak ∧
    (add_screenshot_section [] ["a.png", "b.png", "c.png"] none 432 150 2 true
      (fun _ => some ⟨100, 80⟩))[5]? = some (Flowable.spacer 1 (108 / 5)) :=
  ⟨((C4_page_break_schedule [] ["a.png", "b.png", "c.png"] none 432 150 2 true
      (fun _ => some ⟨100, 80⟩) (by decide) 2 (by decide) (by decide)).1).mpr
      ⟨⟨1, rfl⟩, by decide⟩,
    ((C4_page_break_schedule [] ["a.png", "b.png", "c.png"] none 432 150 2 true
      (fun _ => some ⟨100, 80⟩) (by decide) 3 (by decide) (by decide)).2.1)
      (by decide)⟩

/-! ### C5: file discovery -/

theorem charListLe_total : ∀ a b : List Char,
    charListLe a b = true ∨ charListLe b a = true := by
  intro a
  induction a with
  | nil => intro b; left; rfl
  | cons x xs ih =>
      intro b
      cases b with
      | nil => right; rfl
      | cons y ys =>
          simp only [charListLe]
          rcases lt_trichotomy x y with h | h | h
          · left; rw [if_pos h]
          · subst h
            rcases ih ys with h2 | h2
            · left; rw [if_neg (lt_irrefl x), if_neg (lt_irrefl x)]; exact h2
            · right; rw [if_neg (lt_irrefl x), if_neg (lt_irrefl x)]; exact h2
          · right; rw [if_pos h]

theorem charListLe_trans : ∀ a b c : List Char,
    charListLe a b = true → charListLe b c = true → charListLe a c = true := by
  intro a
  induction a with
  | nil => intro b c h1 h2; rfl
  | cons x xs ih =>
      intro b c h1 h2
      cases b with
      | nil => exact absurd h1 (by simp [charListLe])
      | cons y ys =>
        cases c with
        | nil => exact absurd h2 (by simp [charListLe])
        | cons z zs =>
            simp only [charListLe] at h1 h2 ⊢
            rcases lt_trichotomy x y with hxy | hxy | hxy
            · rcases lt_trichotomy y z with hyz | hyz | hyz
              · rw [if_pos (lt_trans hxy hyz)]
              · subst hyz; rw [if_pos hxy]
              · rw [if_neg (asymm hyz), if_pos hyz] at h2
                exact absurd h2 (by simp)
            · subst hxy
              rw [if_neg (lt_irrefl x), if_neg (lt_irrefl x)] at h1
              rcases lt_trichotomy x z with hxz | hxz | hxz
              · rw [if_pos hxz]
              · subst hxz
                rw [if_neg (lt_irrefl x), if_neg (lt_irrefl x)] at h2 ⊢
                exact ih ys zs h1 h2
              · rw [if_neg (asymm hxz), if_pos hxz] at h2
                exact absurd h2 (by simp)
            · rw [if_neg (asymm hxy), if_pos hxy] at h1
              exact absurd h1 (by simp)

instance : IsTotal String nameLe :=
  ⟨fun a b => charListLe_total (a.toList.map Char.toLower) (b.toList.map Char.toLower)⟩

instance : IsTrans String nameLe :=
  ⟨fun a b c => charListLe_trans (a.toList.map Char.toLower)
    (b.toList.map Char.toLower) (c.toList.map Char.toLower)⟩

theorem find_images_name_eq (dirFiles : List String) (mtime fsize : String → ℕ)
    (pattern : String) :
    find_images dirFiles mtime fsize pattern ("name") =
      (((((splitOnComma pattern.toList).map trimChars).flatMap (fun pat =>
        dirFiles.filter (fun f => globMatch pat f.toList) ++
        dirFiles.filter (fun f => globMatch (upperChars pat) f.toList))).dedup).filter
        (fun f => imageExtensions.contains (lowerStr (pySuffix f)))).insertionSort
        nameLe := rfl

theorem find_images_perm (dirFiles : List String) (mtime fsize : String → ℕ)
    (pattern sortBy : String) :
    (find_images dirFiles mtime fsize pattern sortBy).Perm
      (((((splitOnComma pattern.toList).map trimChars).flatMap (fun pat =>
        dirFiles.filter (fun f => globMatch pat f.toList) ++
        dirFiles.filter (fun f => globMatch (upperChars pat) f.toList))).dedup).filter
        (fun f => imageExtensions.contains (lowerStr (pySuffix f)))) := by
  unfold find_images
  split_ifs
  · exact List.perm_insertionSort _ _
  · exact List.perm_insertionSort _ _
  · exact List.perm_insertionSort _ _
  · exact List.Perm.refl _

/-- C5: discovery matches every pattern as given and upper-cased, restricted
to directory entries, deduplicates, keeps only names whose lower-cased
extension is in the fixed image allow-list (for every sort key), and under
the name sort returns a case-insensitively ordered list; the concrete
a.PNG/b.jpg/c.txt directory yields exactly [a.PNG, b.jpg]. -/
theorem C5_find_images (dirFiles : List String) (mtime fsize : String → ℕ)
    (pattern sortBy : String) :
    find_images ["a.PNG", "b.jpg", "c.txt"] (fun _ => 0) (fun _ => 0)
        ("*.png,*.jpg") ("name") = ["a.PNG", "b.jpg"] ∧
    (find_images dirFiles mtime fsize pattern sortBy).Nodup ∧
    (∀ f ∈ find_images dirFiles mtime fsize pattern sortBy,
      f ∈ dirFiles ∧
      imageExtensions.contains (lowerStr (pySuffix f)) = true ∧
      ∃ pat ∈ (splitOnComma pattern.toList).map trimChars,
        globMatch pat f.toList = true ∨ globMatch (upperChars pat) f.toList = true) ∧
    (find_images dirFiles mtime fsize pattern ("name")).Pairwise nameLe := by
  refine ⟨by decide, ?_, ?_, ?_⟩
  · exact (find_images_perm dirFiles mtime fsize pattern sortBy).nodup_iff.mpr
      ((List.nodup_dedup _).filter _)
  · intro f hf
    replace hf := (find_images_perm dirFiles mtime fsize pattern sortBy).mem_iff.mp hf
    obtain ⟨hf1, hext⟩ := List.mem_filter.mp hf
    replace hf1 := (List.mem_dedup).mp hf1
    obtain ⟨pat, hpat, hmem⟩ := List.mem_flatMap.mp hf1
    rcases List.mem_append.mp hmem with hcase | hcase
    · obtain ⟨hdir, hglob⟩ := List.mem_filter.mp hcase
      exact ⟨hdir, hext, pat, hpat, Or.inl hglob⟩
    · obtain ⟨hdir, hglob⟩ := List.mem_filter.mp hcase
      exact ⟨hdir, hext, pat, hpat, Or.inr hglob⟩
  · rw [find_images_name_eq]
    exact List.sorted_insertionSort nameLe _

/-- Witness for C5: the concrete directory, and the membership facts for the
first returned file. -/
theorem C5_find_images_witness :
    find_images ["a.PNG", "b.jpg", "c.txt"] (fun _ => 0) (fun _ => 0)
        ("*.png,*.jpg") ("name") = ["a.PNG", "b.jpg"] ∧
    ("a.PNG") ∈ find_images ["a.PNG", "b.jpg", "c.txt"] (fun _ => 0) (fun _ => 0)
        ("*.png,*.jpg") ("name") ∧
    (("a.PNG") ∈ (["a.PNG", "b.jpg", "c.txt"] : List String) ∧
      imageExtensions.contains (lowerStr (pySuffix ("a.PNG"))) = true ∧
      ∃ pat ∈ (splitOnComma ("*.png,*.jpg").toList).map trimChars,
        globMatch pat ("a.PNG").toList = true ∨
        globMatch (upperChars pat) ("a.PNG").toList = true) :=
  ⟨(C5_find_images ["a.PNG", "b.jpg", "c.txt"] (fun _ => 0) (fun _ => 0)
      ("*.png,*.jpg") ("name")).1,
    by decide,
    (C5_find_images ["a.PNG", "b.jpg", "c.txt"] (fun _ => 0) (fun _ => 0)
      ("*.png,*.jpg") ("name")).2.2.1 ("a.PNG") (by decide)⟩

/-! ### C7: decode failure degrades to a placeholder -/

/-- C7: a decode failure never drops the item: the block substitutes the
italic error paragraph for the image and is still emitted; in the concrete
three-image build with exactly one unreadable file, the run exits 0 and the
story holds all three kept-together item blocks, exactly one carrying the
error placeholder and the other two carrying images. -/
theorem C7_error_placeholder (name : String) (maxW annH : ℚ) (showF : Bool)
    (cap : Option String) :
    (Flowable.para (("<i>[Error loading image: ") ++ name ++ ("]</i>")) ("caption")
       ∈ create_screenshot_block name none maxW annH showF cap) ∧
    (create_screenshot_block name none maxW annH showF cap).countP isImageFlow = 0 ∧
    create_screenshot_block name none maxW annH showF cap ≠ [] ∧
    (pdfMain ["a.png", "bad.png", "c.png"] (fun _ => 0) (fun _ => 0) decodeOneBad
        ("2026-10-12") ("*.png,*.jpg,*.jpeg") ("name") 500 1 150 none none none).1
      = 0 ∧
    ((pdfMain ["a.png", "bad.png", "c.png"] (fun _ => 0) (fun _ => 0) decodeOneBad
        ("2026-10-12") ("*.png,*.jpg,*.jpeg") ("name") 500 1 150 none none
        none).2.map
      (fun st => (st.countP isKeepTogetherFlow, st.countP blockHasError,
        st.countP blockHasImage))) = some (3, 1, 2) := by
  refine ⟨?_, ?_, ?_, by decide, by decide⟩
  · unfold create_screenshot_block
    apply List.mem_append_left
    apply List.mem_append_left
    apply List.mem_append_right
    simp
  · unfold create_screenshot_block
    split_ifs <;>
      simp [List.countP_append, List.countP_cons, isImageFlow, create_annotation_box]
  · unfold create_screenshot_block
    intro hnil
    have hlen := congrArg List.length hnil
    rw [List.length_append, List.length_append, List.length_append] at hlen
    simp at hlen
